import Mathlib

/-!
Verification of the `imagemeta` JPEG/Exif metadata extractor.

The development shallowly embeds the JPEG marker scanner (`jpeg` package,
`ScanJPEG` and the `jpegReader` methods) and the Exif entry points of the
`exif` package (`ParseExif`, `Data.ParseIfd`, `Data.GetTag`,
`Data.GetTagValue`).  Byte streams are lists of natural numbers (each a
byte value); machine-integer wraparound of the Go `uint8`/`uint32`
counters is made explicit with `% 256` / `% 4294967296`.  The scan loop,
which in Go is an unbounded `for`, is embedded with an explicit fuel
argument; every theorem that talks about a run of the loop supplies the
fuel it needs.
-/

namespace ImageMeta

/-- Byte order of a TIFF block.  The Go code uses `binary.ByteOrder`
interface values; `unknown` models the unrecognized case. -/
inductive ByteOrder where
  | little
  | big
  | unknown
deriving DecidableEq, Repr

/-- Modelled from the spec: `meta.BinaryOrder` (the `meta` package is not
in the sources).  Spec section 6: the TIFF block starts with a 2-byte
byte-order mark, `II` (0x49 0x49) little-endian or `MM` (0x4D 0x4D)
big-endian. -/
def binaryOrder (b0 b1 : Nat) : ByteOrder :=
  if b0 = 0x49 ∧ b1 = 0x49 then .little
  else if b0 = 0x4D ∧ b1 = 0x4D then .big
  else .unknown

/-- Decode four bytes as a 32-bit unsigned value in the given byte order
(`byteOrder.Uint32(buf[4:8])` in the Go code).  An unknown byte order has
no decoder in Go (nil interface); it is mapped to `0` here and never
relied upon by a theorem. -/
def ByteOrder.uint32 : ByteOrder → Nat → Nat → Nat → Nat → Nat
  | .little, a, b, c, d => a + 256 * b + 65536 * c + 16777216 * d
  | .big, a, b, c, d => 16777216 * a + 65536 * b + 256 * c + d
  | .unknown, _, _, _, _ => 0

/-- Big-endian 16-bit decode, `binary.BigEndian.Uint16` (`jpegEndian`). -/
def be16 (a b : Nat) : Nat := 256 * a + b

/-- Modelled from the spec: the IFD kind tags of the missing `ifds`
package (`ifds.IfdType`); section 3 lists primary, thumbnail, Exif
sub-IFD, GPS sub-IFD, maker-note, plus the null designator. -/
inductive IfdType where
  | nullIFD
  | ifd0
  | subIFD
  | exifIFD
  | gpsIFD
  | mknoteIFD
deriving DecidableEq, Repr

/-- `imagetype.ImageJPEG` (the `imagetype` package is not in the
sources); an abstract image-type tag value. -/
def imageJPEG : Nat := 1

/-- Modelled from the spec: `meta.ExifHeader` (section 3, ExifHeader):
byte order, offset of the first IFD relative to the TIFF block, absolute
offset of the TIFF block within the stream, declared length of the Exif
segment, first-directory designator and the container's image-type tag. -/
structure ExifHeader where
  byteOrder : ByteOrder
  firstIfdOffset : Nat
  tiffHeaderOffset : Nat
  exifLength : Nat
  firstIfd : IfdType := .nullIFD
  imageType : Nat := imageJPEG
deriving DecidableEq, Repr

/-- Modelled from the spec: `ExifHeader.IsValid` (section 3: a header is
"valid only if byte order is recognized and offsets are non-negative";
offsets are unsigned in the source, so only the byte order is a real
condition). -/
def ExifHeader.IsValid (h : ExifHeader) : Bool :=
  h.byteOrder != .unknown

/-- `meta.NewExifHeader(byteOrder, firstIfdOffset, tiffHeaderOffset,
exifLength, imageType)`: plain construction, the first-directory
designator keeps its zero value. -/
def NewExifHeader (bo : ByteOrder) (firstIfdOffset tiffHeaderOffset exifLength imageType : Nat) :
    ExifHeader :=
  { byteOrder := bo, firstIfdOffset := firstIfdOffset, tiffHeaderOffset := tiffHeaderOffset,
    exifLength := exifLength, firstIfd := .nullIFD, imageType := imageType }

end ImageMeta

namespace Jpeg

open ImageMeta

/-- Errors of the scan (`jpeg` package).  `ioErr` carries the code of an
underlying-reader or buffered-reader failure (`0` stands for plain EOF),
`negCount` is `bufio.ErrNegativeCount`, `cbErr` an error value returned
by a caller-supplied callback. -/
inductive JErr where
  | noJPEGMarker
  | endOfImage
  | ioErr (code : Nat)
  | negCount
  | cbErr (code : Nat)
deriving DecidableEq, Repr

/-- The forward-only input: the remaining bytes, and the outcome once
they are exhausted (`none` = clean end of stream, `some c` = the reader
fails with its own error `c`). -/
structure ByteStream where
  bytes : List Nat
  fail : Option Nat := none
deriving DecidableEq, Repr

/-- `bufio.Reader.Peek n`: the next `n` bytes without advancing, or the
reader's error when fewer than `n` bytes are available. -/
def peek (n : Nat) (s : ByteStream) : Except Nat (List Nat) :=
  if n ≤ s.bytes.length then .ok (s.bytes.take n) else .error (s.fail.getD 0)

/-- `bufio.Reader.Discard n`: drops up to `n` bytes, returning the count
actually dropped and an error when it is short. -/
def ByteStream.discard (s : ByteStream) (n : Nat) : ByteStream × Nat × Option JErr :=
  if n ≤ s.bytes.length then ({ s with bytes := s.bytes.drop n }, n, none)
  else ({ s with bytes := [] }, s.bytes.length, some (.ioErr (s.fail.getD 0)))

/-- `sofHeader`: height, width and number of components. -/
structure SofHeader where
  height : Nat := 0
  width : Nat := 0
  components : Nat := 0
deriving DecidableEq, Repr

/-- Observable callback invocations of one scan (instrumentation only;
newest first). -/
inductive Event where
  | exifCall (h : ExifHeader)
  | xmpCall
deriving DecidableEq, Repr

/-- The `jpegReader` state: remaining stream, SOI/EOI nesting counter
`pos` (a Go `uint8`), the count of discarded bytes (a Go `uint32`), the
SOF record, and the instrumentation log. -/
structure JpegState where
  stream : ByteStream
  pos : Nat := 0
  discarded : Nat := 0
  sof : SofHeader := {}
  events : List Event := []
deriving DecidableEq, Repr

/-- `jpegReader.discard`: count the bytes actually dropped (with `uint32`
wraparound), no-change fast path for `0`. -/
def jdiscard (s : JpegState) (n : Nat) : JpegState × Option JErr :=
  if n = 0 then (s, none)
  else
    let r := s.stream.discard n
    ({ s with stream := r.1, discarded := (s.discarded + r.2.1) % 4294967296 }, r.2.2)

/-- `jpegReader.discard` applied to a Go `int` count: a negative count is
rejected by `bufio` with `ErrNegativeCount` and drops nothing. -/
def jdiscardI (s : JpegState) (n : Int) : JpegState × Option JErr :=
  if n < 0 then (s, some .negCount) else jdiscard s n.toNat

/-- The caller-supplied callbacks of `ScanJPEG`.  The Exif callback
receives the header and the bytes from the reader's position on and
reports how many bytes it consumed plus an optional error; the XMP
callback receives the length-bounded payload bytes. -/
structure Callbacks where
  exifCB : Option (ExifHeader → List Nat → Nat × Option Nat) := none
  xmpCB : Option (List Nat → Nat × Option Nat) := none

/-- `markerLength`: the big-endian segment length at offsets 2..3. -/
def markerLength (bs : List Nat) : Nat := be16 (bs.getD 2 0) (bs.getD 3 0)

/-- `isExifPrefix`: bytes 4..9 spell `Exif\0\0`. -/
def isExifPrefix (bs : List Nat) : Bool :=
  (bs.drop 4).take 6 == [0x45, 0x78, 0x69, 0x66, 0, 0]

/-- The 29 bytes of the XMP signature. -/
def xmpSig : List Nat :=
  [0x68, 0x74, 0x74, 0x70, 0x3a, 0x2f, 0x2f, 0x6e, 0x73, 0x2e, 0x61, 0x64, 0x6f, 0x62,
   0x65, 0x2e, 0x63, 0x6f, 0x6d, 0x2f, 0x78, 0x61, 0x70, 0x2f, 0x31, 0x2e, 0x30, 0x2f, 0]

/-- `isXMPPrefix`: bytes 4..32 spell the XMP signature. -/
def isXMPPrefix (bs : List Nat) : Bool :=
  (bs.drop 4).take 29 == xmpSig

/-- The 34 bytes of the XMP extension signature. -/
def xmpExtSig : List Nat :=
  [0x68, 0x74, 0x74, 0x70, 0x3a, 0x2f, 0x2f, 0x6e, 0x73, 0x2e, 0x61, 0x64, 0x6f, 0x62,
   0x65, 0x2e, 0x63, 0x6f, 0x6d, 0x2f, 0x78, 0x6d, 0x70, 0x2f, 0x65, 0x78, 0x74, 0x65,
   0x6e, 0x73, 0x69, 0x6f, 0x6e, 0x2f]

/-- `isXMPPrefixExt`: bytes 4..37 spell the XMP extension signature. -/
def isXMPPrefixExt (bs : List Nat) : Bool :=
  (bs.drop 4).take 34 == xmpExtSig

/-- `isJFIFPrefix`: bytes 4..8 spell `JFIF\0`. -/
def isJFIFPrefix (bs : List Nat) : Bool :=
  (bs.drop 4).take 5 == [0x4a, 0x46, 0x49, 0x46, 0]

/-- `isJFIFPrefixExt`: bytes 4..8 spell `JFXX\0`. -/
def isJFIFPrefixExt (bs : List Nat) : Bool :=
  (bs.drop 4).take 5 == [0x4a, 0x46, 0x58, 0x58, 0]

/-- `isICCProfilePrefix`: bytes 4..14 spell `ICC_PROFILE`. -/
def isICCProfilePrefix (bs : List Nat) : Bool :=
  (bs.drop 4).take 11 == [0x49, 0x43, 0x43, 0x5f, 0x50, 0x52, 0x4f, 0x46, 0x49, 0x4c, 0x45]

/-- `isPhotoshopPrefix`: bytes 4..13 spell `Photoshop `. -/
def isPhotoshopPrefix (bs : List Nat) : Bool :=
  (bs.drop 4).take 10 == [0x50, 0x68, 0x6f, 0x74, 0x6f, 0x73, 0x68, 0x6f, 0x70, 0x20]

/-- `jfifHeader`: the declared length when the JFIF signature matches,
otherwise `0`. -/
def jfifHeader (bs : List Nat) : Nat :=
  if isJFIFPrefix bs then markerLength bs else 0

/-- `jpegReader.ignoreMarker`: discard the declared length plus the two
marker bytes. -/
def ignoreMarker (s : JpegState) : JpegState × Option JErr :=
  jdiscard s (markerLength s.stream.bytes + 2)

/-- `jpegReader.readSOF`: decode height (bytes 5..6), width (bytes 7..8)
and component count (byte 9); record them only when the nesting counter
equals 1; then discard the whole segment. -/
def readSOF (s : JpegState) : JpegState × Option JErr :=
  let bs := s.stream.bytes
  let length := markerLength bs
  let header : SofHeader :=
    ⟨be16 (bs.getD 5 0) (bs.getD 6 0), be16 (bs.getD 7 0) (bs.getD 8 0), bs.getD 9 0⟩
  let s' := if s.pos = 1 then { s with sof := header } else s
  jdiscard s' (length + 2)

/-- `jpegReader.readExif`: compute the payload length (declared length
minus the 8-byte `exifPrefixLength`), discard marker plus prefix (10
bytes), peek the 8-byte TIFF header, build the `ExifHeader` stamped with
the current `discarded` count, hand the reader to the Exif callback, and
afterwards zero the remaining count (so nothing further is discarded);
without a callback the whole payload is discarded. -/
def readExif (cbs : Callbacks) (s : JpegState) : JpegState × Option JErr :=
  let remain : Int := (markerLength s.stream.bytes : Int) - 8
  let d := jdiscard s 10
  match d.2 with
  | some e => (d.1, some e)
  | none =>
    let s := d.1
    match peek 8 s.stream with
    | .error c => (s, some (.ioErr c))
    | .ok buf =>
      match cbs.exifCB with
      | none => jdiscardI s remain
      | some cb =>
        let bo := binaryOrder (buf.getD 0 0) (buf.getD 1 0)
        let firstIfdOffset := bo.uint32 (buf.getD 4 0) (buf.getD 5 0) (buf.getD 6 0) (buf.getD 7 0)
        let exifLength := (remain % 4294967296).toNat
        let header := NewExifHeader bo firstIfdOffset s.discarded exifLength imageJPEG
        let r := cb header s.stream.bytes
        let consumed := min r.1 s.stream.bytes.length
        let s := { s with
          stream := { s.stream with bytes := s.stream.bytes.drop consumed },
          events := .exifCall header :: s.events }
        match r.2 with
        | some c => (s, some (.cbErr c))
        | none => jdiscardI s 0

/-- `jpegReader.readXMP`: payload length is the declared length minus 2
length bytes and the 29-byte signature; discard 4 + 29 bytes, hand a
length-bounded reader to the XMP callback, then discard whatever the
callback left unconsumed. -/
def readXMP (cbs : Callbacks) (s : JpegState) : JpegState × Option JErr :=
  let remain : Int := (markerLength s.stream.bytes : Int) - 2 - 29
  let d := jdiscard s 33
  match d.2 with
  | some e => (d.1, some e)
  | none =>
    let s := d.1
    match cbs.xmpCB with
    | none => jdiscardI s remain
    | some cb =>
      let lim := remain.toNat
      let r := cb (s.stream.bytes.take lim)
      let consumed := min r.1 (min lim s.stream.bytes.length)
      let s := { s with
        stream := { s.stream with bytes := s.stream.bytes.drop consumed },
        events := .xmpCall :: s.events }
      match r.2 with
      | some c => (s, some (.cbErr c))
      | none => jdiscardI s (remain - consumed)

/-- `jpegReader.readAPP1`: dispatch on the payload signature: Exif, XMP,
XMP extension (ignored), otherwise ignored. -/
def readAPP1 (cbs : Callbacks) (s : JpegState) : JpegState × Option JErr :=
  let bs := s.stream.bytes
  if isExifPrefix bs then readExif cbs s
  else if isXMPPrefix bs then readXMP cbs s
  else if isXMPPrefixExt bs then ignoreMarker s
  else ignoreMarker s

/-- The SOF marker codes handled by the scan loop (SOF11 `0xCB` is
defined in the source but not matched by the switch). -/
def isSOFMarker (b : Nat) : Bool :=
  b == 0xC0 || b == 0xC1 || b == 0xC2 || b == 0xC3 || b == 0xC5 ||
  b == 0xC6 || b == 0xC7 || b == 0xC9 || b == 0xCA

/-- Result of a scan: a normal (nil-error) return, an error return, or
fuel exhaustion of the embedding (never produced by a run with enough
fuel). -/
inductive Outcome where
  | ok
  | err (e : JErr)
  | fuelOut
deriving DecidableEq, Repr

/-- Convert the error slot of a terminal branch into an `Outcome`
(`if err != nil return err` followed by `break` / `return`). -/
def terminal : Option JErr → Outcome
  | none => .ok
  | some e => .err e

/-- One iteration of the `ScanJPEG` loop after a successful 16-byte
peek: either the loop continues with a new state (the Go `continue`
paths) or it stops with an outcome and a final state (the `return` and
`break` paths).  The classification follows the Go `switch` on the
marker byte exactly. -/
inductive StepRes where
  | cont (s' : JpegState)
  | stop (o : Outcome) (s' : JpegState)
deriving Repr

/-- The state carried by a step result. -/
def StepRes.state : StepRes → JpegState
  | .cont s => s
  | .stop _ s => s

/-- The body of one `ScanJPEG` loop iteration (after the peek): skip
non-marker bytes one at a time, count SOI markers, and classify the
marker byte exactly as the Go `switch`: cases that `continue` yield
`cont`, cases that `return` or fall through to `break` yield `stop`. -/
def scanStep (cbs : Callbacks) (s : JpegState) : StepRes :=
  let bs := s.stream.bytes
  if bs.getD 0 0 ≠ 255 then .cont (jdiscard s 1).1
  else if bs.getD 1 0 = 0xD8 then
    .cont (jdiscard { s with pos := (s.pos + 1) % 256 } 2).1
  else if s.pos > 0 then
    let b := bs.getD 1 0
    if isSOFMarker b then
      let r := readSOF s
      .stop (terminal r.2) r.1
    else if b = 0xC4 then
      if s.pos = 1 then .stop (.err .endOfImage) s
      else
        let r := ignoreMarker s
        .stop (terminal r.2) r.1
    else if b = 0xD9 then
      let s' := { s with pos := s.pos - 1 }
      if s'.pos = 1 then .stop (.err .endOfImage) s'
      else
        let r := jdiscard s' 2
        .stop (terminal r.2) r.1
    else if b = 0xDB then .cont (ignoreMarker s).1
    else if b = 0xDD then
      let r := jdiscard s 6
      .stop (terminal r.2) r.1
    else if b = 0xE0 then
      if isJFIFPrefix bs || isJFIFPrefixExt bs then
        .cont (jdiscard s (jfifHeader bs + 2)).1
      else .cont (ignoreMarker s).1
    else if b = 0xE1 then .cont (readAPP1 cbs s).1
    else if b = 0xE2 then .cont (ignoreMarker s).1
    else if b = 0xE7 ∨ b = 0xE8 ∨ b = 0xE9 ∨ b = 0xEA then
      let r := ignoreMarker s
      .stop (terminal r.2) r.1
    else if b = 0xED then .cont (ignoreMarker s).1
    else if b = 0xEE then
      let r := ignoreMarker s
      .stop (terminal r.2) r.1
    else .stop .ok s
  else .stop .ok s

/-- The `ScanJPEG` loop of the `jpeg` package, one constructor of fuel
per iteration.  Each iteration peeks 16 bytes (any failure becomes
`ErrNoJPEGMarker`) and then runs `scanStep`. -/
def scanLoop (cbs : Callbacks) : Nat → JpegState → Outcome × JpegState
  | 0, s => (.fuelOut, s)
  | fuel + 1, s =>
    match peek 16 s.stream with
    | .error _ => (.err .noJPEGMarker, s)
    | .ok _ =>
      match scanStep cbs s with
      | .cont s' => scanLoop cbs fuel s'
      | .stop o s' => (o, s')

/-- The initial `jpegReader` state over an input stream. -/
def initState (input : ByteStream) : JpegState := { stream := input }

/-- `ScanJPEG` applied to an input stream (the fuel bounds the number of
loop iterations of the embedding). -/
def ScanJPEG (cbs : Callbacks) (fuel : Nat) (input : ByteStream) : Outcome × JpegState :=
  scanLoop cbs fuel (initState input)

/-- Go panic values: runtime faults (such as index out of range) satisfy
the `error` interface; other panic values do not. -/
inductive GoPanic where
  | errValue (e : JErr)
  | nonError
deriving DecidableEq, Repr

/-- Outcome of the scan body before the deferred recover runs: a normal
return carrying the named result `err`, or a panic. -/
inductive BodyOutcome where
  | ret (e : Option JErr)
  | panicked (p : GoPanic)
deriving DecidableEq, Repr

/-- Result observed by the caller of `ScanJPEG`: an ordinary return, or
an escaped panic. -/
inductive RecoverResult where
  | returns (e : Option JErr)
  | escapes
deriving DecidableEq, Repr

/-- The deferred recover block at the top of `ScanJPEG`:
`if state := recover(); state != nil { err = state.(error) }`.  A normal
return passes through; a panic whose value satisfies `error` is converted
into the ordinary error return; the type assertion itself panics on any
other value, which then escapes. -/
def scanRecover : BodyOutcome → RecoverResult
  | .ret e => .returns e
  | .panicked (.errValue e) => .returns (some e)
  | .panicked .nonError => .escapes

end Jpeg

namespace Exif

open ImageMeta

/-- Errors of the `exif` package: `ErrInvalidHeader`, `ErrEmptyTag`, and
a catch-all for error values produced elsewhere (IFD scanning, I/O). -/
inductive ExifErr where
  | invalidHeader
  | noExif
  | emptyTag
  | other (code : Nat)
deriving DecidableEq, Repr

/-- Modelled from the spec: tag type codes of the missing `tag` package
(section 4.3 lists byte, ASCII (nul-terminated or not), short, long,
rational, signed rational, undefined; `invalid` is the zero value). -/
inductive TagType where
  | invalid
  | byte
  | ascii
  | asciiNoNul
  | short
  | long
  | rational
  | signedRational
  | undef
deriving DecidableEq, Repr

/-- Modelled from the spec: `tag.Tag` (section 3, tag record): numeric
identifier, type code, element count, and inline value bytes or offset.
The zero value `{}` is what `GetTag` returns on a miss. -/
structure Tag where
  id : Nat := 0
  tagType : TagType := .invalid
  unitCount : Nat := 0
  valueOffset : Nat := 0
deriving DecidableEq, Repr

/-- Modelled from the spec: `ifds.NewKey` key triple (directory kind,
directory index, tag id). -/
structure IfdKey where
  ifdType : IfdType
  index : Nat
  tagID : Nat
deriving DecidableEq, Repr

/-- `ifds.TagMap`, as an association list keyed by `IfdKey`. -/
abbrev TagMap := List (IfdKey × Tag)

/-- Map lookup (`e.tagMap[key]` with the comma-ok idiom). -/
def TagMap.lookup (m : TagMap) (k : IfdKey) : Option Tag :=
  (List.find? (fun p => p.1 = k) m).map (fun p => p.2)

/-- The reader fields re-seeded by `Data.ParseIfd` (`exifLength`,
`exifOffset`, `byteOrder` of the package-private `reader`). -/
structure ReaderSt where
  exifOffset : Nat
  exifLength : Nat
  byteOrder : ByteOrder
deriving DecidableEq, Repr

/-- `exif.Data`: the parsed-Exif result object. -/
structure Data where
  reader : ReaderSt
  tagMap : TagMap
  imageType : Nat
deriving Repr

/-- `newReader` followed by `newData`: a fresh result object seeded from
the header, with an empty tag map. -/
def newData (h : ExifHeader) : Data :=
  { reader := ⟨h.tiffHeaderOffset, h.exifLength, h.byteOrder⟩, tagMap := [],
    imageType := h.imageType }

/-- The directory-resolution pass (`reader.scanIFD`) is not part of the
sources; entry points take it as a function of the result object, the
first directory's kind, index and offset, returning the error of the
walk. -/
def ScanIFD := Data → IfdType → Nat → Nat → Option ExifErr

/-- `exif.ParseExif`: reject an invalid header with `ErrInvalidHeader`
before any resolution; a null first-directory designator is replaced by
`IFD0`; then scan the first IFD at the header's first-IFD offset.  The
result object is returned alongside the walk's error. -/
def ParseExif (scanIFD : ScanIFD) (h : ExifHeader) : Option Data × Option ExifErr :=
  if ¬ h.IsValid then (none, some .invalidHeader)
  else
    let fi := if h.firstIfd = .nullIFD then .ifd0 else h.firstIfd
    let e := newData h
    (some e, scanIFD e fi 0 h.firstIfdOffset)

/-- `Data.ParseIfd`: reject the header when it is invalid or its
first-directory designator is null; otherwise re-seed the reader's
length, offset and byte order and scan the first IFD. -/
def Data.ParseIfd (scanIFD : ScanIFD) (d : Data) (h : ExifHeader) : Data × Option ExifErr :=
  if ¬ h.IsValid ∨ h.firstIfd = .nullIFD then (d, some .invalidHeader)
  else
    let d' := { d with reader := ⟨h.tiffHeaderOffset, h.exifLength, h.byteOrder⟩ }
    (d', scanIFD d' h.firstIfd 0 h.firstIfdOffset)

/-- `ifds.NewKey`. -/
def NewKey (ifd : IfdType) (ifdIndex : Nat) (tagID : Nat) : IfdKey :=
  ⟨ifd, ifdIndex, tagID⟩

/-- `Data.GetTag`: look the key up in the tag map; on a miss return the
zero tag and `ErrEmptyTag`.  The receiver is returned unchanged to make
explicit that the lookup never mutates the result object. -/
def Data.GetTag (d : Data) (ifd : IfdType) (ifdIndex : Nat) (tagID : Nat) :
    Data × Tag × Option ExifErr :=
  match d.tagMap.lookup (NewKey ifd ifdIndex tagID) with
  | some t => (d, t, none)
  | none => (d, {}, some .emptyTag)

/-- Decoded tag values produced by `Data.GetTagValue` (the Go function
returns `interface{}`; `none` models a nil result). -/
inductive TagValue where
  | str (s : List Nat)
  | u16 (n : Nat)
  | u16s (l : List Nat)
  | u32 (n : Nat)
  | u32s (l : List Nat)
  | rats (l : List (Nat × Nat))
  | srats (l : List (Int × Int))
deriving DecidableEq, Repr

/-- The type-directed value decoders (`ParseASCIIValue`,
`ParseUint16Value(s)`, `ParseUint32Value(s)`, `ParseRationalValues`,
`ParseSRationalValues`) are not part of the sources; `GetTagValue` takes
them as a bundle.  `GetTagValue` ignores their error results, so only
the value component is modelled. -/
structure ValueParsers where
  parseASCII : Tag → List Nat
  parseU16 : Tag → Nat
  parseU16s : Tag → List Nat
  parseU32 : Tag → Nat
  parseU32s : Tag → List Nat
  parseRats : Tag → List (Nat × Nat)
  parseSRats : Tag → List (Int × Int)

/-- `Data.GetTagValue`: dispatch on the tag's type code; ASCII-class
values are clamped to `asciiLimit = 64` bytes, short/long dispatch on
the unit count, rationals decode as sequences; every other type code
leaves the result nil. -/
def GetTagValue (P : ValueParsers) (t : Tag) : Option TagValue :=
  match t.tagType with
  | .ascii | .asciiNoNul | .byte =>
    let str := P.parseASCII t
    if str.length > 64 then some (.str (str.take 64)) else some (.str str)
  | .short =>
    if t.unitCount > 1 then some (.u16s (P.parseU16s t)) else some (.u16 (P.parseU16 t))
  | .long =>
    if t.unitCount > 1 then some (.u32s (P.parseU32s t)) else some (.u32 (P.parseU32 t))
  | .rational => some (.rats (P.parseRats t))
  | .signedRational => some (.srats (P.parseSRats t))
  | _ => none

end Exif

namespace Jpeg

open ImageMeta

/-- A well-formed marker segment: marker code plus payload; the declared
length (payload plus the two length bytes) is stored big-endian. -/
structure Seg where
  marker : Nat
  payload : List Nat
deriving DecidableEq, Repr

/-- The byte rendering of a segment. -/
def Seg.render (g : Seg) : List Nat :=
  255 :: g.marker :: ((g.payload.length + 2) / 256) :: ((g.payload.length + 2) % 256) :: g.payload

/-- Byte rendering of a list of segments. -/
def renderSegs (gs : List Seg) : List Nat := (gs.map Seg.render).flatten

/-- Total stream footprint of a list of segments. -/
def totalLen (gs : List Seg) : Nat := (gs.map (fun g => g.payload.length + 4)).sum

/-- Segments the scan loop passes with `continue`, discarding exactly
their declared length: quantization tables (DQT), APP2, APP13, and APP0
(except a `JFXX` signature, which the source handles by discarding
only 2 bytes). -/
def Seg.skip (g : Seg) : Prop :=
  (g.marker = 0xDB ∨ g.marker = 0xE2 ∨ g.marker = 0xED ∨
    (g.marker = 0xE0 ∧ 5 ≤ g.payload.length ∧
      g.payload.take 5 ≠ [0x4a, 0x46, 0x58, 0x58, 0])) ∧
  g.payload.length + 2 < 65536

instance (g : Seg) : Decidable g.skip := by
  unfold Seg.skip
  infer_instance

/-- The `ExifHeader` that `readExif` constructs when the stream at the
APP1 marker has declared length bytes `hi`/`lo`, the scanner has
discarded `d` bytes so far, and `tl` are the bytes from the TIFF block
start on. -/
def exifHeaderAt (hi lo d : Nat) (tl : List Nat) : ExifHeader :=
  NewExifHeader (binaryOrder (tl.getD 0 0) (tl.getD 1 0))
    ((binaryOrder (tl.getD 0 0) (tl.getD 1 0)).uint32 (tl.getD 4 0) (tl.getD 5 0) (tl.getD 6 0)
      (tl.getD 7 0))
    ((d + 10) % 4294967296)
    ((((256 * hi + lo : Nat) : Int) - 8) % 4294967296).toNat
    imageJPEG

/-- The claim C3 input class, formalised: a byte stream that is exactly
one SOI...EOI image — structural segments (JPEG-structural marker codes,
correct declared lengths and no 0xFF bytes in payloads, hence exactly
one outermost SOI/EOI pair and no APP1/Exif segment), an SOS-started
entropy span without 0xFF bytes, the single closing EOI — and that
contains a Start-Of-Frame segment. -/
def SingleImageNoExifJPEG (bs : List Nat) : Prop :=
  ∃ gs entropy, bs = 255 :: 216 :: (renderSegs gs ++ ((255 :: 218 :: entropy) ++ [255, 217])) ∧
    (∀ g ∈ gs, (g.marker = 0xDB ∨ isSOFMarker g.marker = true ∨ g.marker = 0xC4 ∨
       g.marker = 0xDD ∨ g.marker = 0xE0 ∨ g.marker = 0xE2 ∨ g.marker = 0xED) ∧
      g.payload.length + 2 < 65536 ∧ ¬ 255 ∈ g.payload) ∧
    ¬ 255 ∈ entropy ∧ (∃ g ∈ gs, isSOFMarker g.marker = true)

/-- Concrete single-image, no-Exif JPEG stream: SOI, DQT, SOF0, DHT,
SOS with entropy data, EOI. -/
def c3bytes : List Nat :=
  255 :: 216 :: (renderSegs [⟨0xDB, [1, 2]⟩, ⟨0xC0, [8, 0, 100, 0, 200, 3, 1, 17, 0]⟩,
      ⟨0xC4, [0, 1]⟩] ++
    ((255 :: 218 :: [10, 20, 30, 40, 50, 60, 70, 80, 90, 100, 110, 120]) ++ [255, 217]))

/-- Observing callbacks: they consume nothing and report no error, so
any invocation is visible in the event log alone. -/
def obsCbs : Callbacks := ⟨some (fun _ _ => (0, none)), some (fun _ => (0, none))⟩

/-- A rendered Exif APP1 segment: declared length 16, `Exif\0\0` prefix,
little-endian TIFF header with first-IFD offset 8. -/
def c5exifSeg : List Nat :=
  255 :: 225 :: 0 :: 16 :: 69 :: 120 :: 105 :: 102 :: 0 :: 0 :: [73, 73, 42, 0, 8, 0, 0, 0]

/-- Concrete stream: SOI, an APP7 segment, then an Exif APP1 segment. -/
def c5bytes : List Nat := 255 :: 216 :: ((⟨0xE7, [9, 9]⟩ : Seg).render ++ c5exifSeg)

end Jpeg

namespace Jpeg

open ImageMeta

lemma peek_ok {n : Nat} {s : ByteStream} (h : n ≤ s.bytes.length) :
    peek n s = .ok (s.bytes.take n) := by
  simp [peek, h]

lemma peek_fail {n : Nat} {s : ByteStream} (h : s.bytes.length < n) :
    peek n s = .error (s.fail.getD 0) := by
  rw [peek, if_neg (by omega)]

lemma jdiscard_eq {s : JpegState} {n : Nat} (h : n ≤ s.stream.bytes.length) (hn : n ≠ 0) :
    jdiscard s n =
      ({ s with stream := { s.stream with bytes := s.stream.bytes.drop n },
                discarded := (s.discarded + n) % 4294967296 }, none) := by
  simp [jdiscard, ByteStream.discard, hn, h]

/-- Claim C4: whenever the scan loop encounters a Define-Huffman-Table
marker (`0xC4`) while the nesting counter equals 1, it stops right there
with the artificial end-of-image sentinel, consuming nothing: the
returned state is exactly the state at the DHT marker's start (same
remaining stream, same discarded count).  The 16-byte lookahead peeked at
that position is the only read and it does not advance the stream. -/
theorem claim_C4_dht_short_circuit (cbs : Callbacks) (fuel : Nat) (rest : List Nat)
    (f : Option Nat) (d : Nat) (sof : SofHeader) (ev : List Event)
    (hlen : 14 ≤ rest.length) :
    scanLoop cbs (fuel + 1) ⟨⟨255 :: 0xC4 :: rest, f⟩, 1, d, sof, ev⟩ =
      (.err .endOfImage, ⟨⟨255 :: 0xC4 :: rest, f⟩, 1, d, sof, ev⟩) := by
  have hp : peek 16 (⟨255 :: 0xC4 :: rest, f⟩ : ByteStream) = .ok ((255 :: 0xC4 :: rest).take 16) :=
    peek_ok (by simp; omega)
  rw [scanLoop, hp]
  simp [scanStep, isSOFMarker]

/-- Witness for C4 at a concrete stream. -/
theorem claim_C4_witness :
    scanLoop {} 5 ⟨⟨255 :: 0xC4 :: List.replicate 14 0, none⟩, 1, 2, {}, []⟩ =
      (.err .endOfImage, ⟨⟨255 :: 0xC4 :: List.replicate 14 0, none⟩, 1, 2, {}, []⟩) :=
  claim_C4_dht_short_circuit {} 4 (List.replicate 14 0) none 2 {} [] (by simp)

end Jpeg

namespace Jpeg

open ImageMeta

lemma isSOFMarker_ne_216 {m : Nat} (hm : isSOFMarker m = true) : m ≠ 216 := by
  intro h
  subst h
  simp [isSOFMarker] at hm

/-- Claim C6: processing a Start-Of-Frame marker.  The height/width and
component count decoded from the segment are written into the SOF record
exactly when the nesting counter equals 1, and the record keeps its old
value at any deeper nesting; the whole segment is then discarded and the
scan loop stops (the returned value does not depend on the remaining
fuel), so no second SOF marker is ever processed in the same scan and the
record written at outermost nesting is frozen. -/
theorem claim_C6_sof_record (cbs : Callbacks) (fuel : Nat) (m : Nat) (tl : List Nat)
    (f : Option Nat) (p d : Nat) (sof : SofHeader) (ev : List Event)
    (hm : isSOFMarker m = true) (hpos : 0 < p) (hlen : 14 ≤ tl.length)
    (hdisc : markerLength (255 :: m :: tl) + 2 ≤ tl.length + 2) :
    scanLoop cbs (fuel + 1) ⟨⟨255 :: m :: tl, f⟩, p, d, sof, ev⟩ =
      (.ok,
       ⟨⟨(255 :: m :: tl).drop (markerLength (255 :: m :: tl) + 2), f⟩, p,
        (d + (markerLength (255 :: m :: tl) + 2)) % 4294967296,
        if p = 1 then
          ⟨be16 (tl.getD 3 0) (tl.getD 4 0), be16 (tl.getD 5 0) (tl.getD 6 0), tl.getD 7 0⟩
        else sof, ev⟩) := by
  have hm216 : m ≠ 216 := isSOFMarker_ne_216 hm
  have hp : peek 16 (⟨255 :: m :: tl, f⟩ : ByteStream) = .ok ((255 :: m :: tl).take 16) :=
    peek_ok (by simp; omega)
  rw [scanLoop, hp]
  unfold scanStep
  simp only [List.getD_cons_zero, List.getD_cons_succ, hm216, hm, hpos, ne_eq,
    not_true_eq_false, if_false, if_true, ite_true, ite_false, gt_iff_lt,
    decide_True]
  unfold readSOF
  by_cases hp1 : p = 1
  · subst hp1
    simp only [if_pos rfl]
    rw [jdiscard_eq (by simpa using hdisc) (by omega)]
    simp [markerLength, terminal]
  · simp only [hp1, if_false, ite_false]
    rw [jdiscard_eq (by simpa using hdisc) (by omega)]
    simp [markerLength, terminal]

/-- Witness for C6 at a concrete SOF0 segment at outermost nesting. -/
theorem claim_C6_witness :
    scanLoop {} 4 ⟨⟨255 :: 0xC0 :: 0 :: 17 :: 8 :: 0 :: 100 :: 0 :: 200 :: 3 :: List.replicate 12 7, none⟩,
        1, 2, {}, []⟩ =
      (.ok,
       ⟨⟨List.replicate 3 7, none⟩, 1, 21, ⟨100, 200, 3⟩, []⟩) := by
  have h := claim_C6_sof_record {} 3 0xC0
    (0 :: 17 :: 8 :: 0 :: 100 :: 0 :: 200 :: 3 :: List.replicate 12 7) none 1 2 {} []
    (by decide) (by decide) (by simp) (by simp [markerLength, be16])
  rw [h]
  simp [markerLength, be16]

end Jpeg

namespace Jpeg

open ImageMeta
lemma getD_take {l : List Nat} {n i : Nat} (h : i < n) : (l.take n).getD i 0 = l.getD i 0 := by
  simp [List.getD, List.getElem?_take, h]

lemma scanLoop_cont {cbs : Callbacks} {s s' : JpegState} (fuel : Nat)
    (hpk : 16 ≤ s.stream.bytes.length) (h : scanStep cbs s = .cont s') :
    scanLoop cbs (fuel + 1) s = scanLoop cbs fuel s' := by
  rw [scanLoop, peek_ok hpk]
  simp only [h]

lemma scanLoop_stop {cbs : Callbacks} {s s' : JpegState} {o : Outcome} (fuel : Nat)
    (hpk : 16 ≤ s.stream.bytes.length) (h : scanStep cbs s = .stop o s') :
    scanLoop cbs (fuel + 1) s = (o, s') := by
  rw [scanLoop, peek_ok hpk]
  simp only [h]

lemma render_length (g : Seg) : g.render.length = g.payload.length + 4 := by
  simp [Seg.render]

lemma markerLength_render (g : Seg) (rest : List Nat) :
    markerLength (g.render ++ rest) = g.payload.length + 2 := by
  simp [Seg.render, markerLength, be16]
  omega

lemma drop_render (g : Seg) (rest : List Nat) :
    (g.render ++ rest).drop (g.payload.length + 4) = rest := by
  rw [← render_length g, List.drop_left]

lemma ignoreMarker_render (g : Seg) (rest : List Nat) (f : Option Nat) (p d : Nat)
    (sof : SofHeader) (ev : List Event) :
    ignoreMarker ⟨⟨g.render ++ rest, f⟩, p, d, sof, ev⟩ =
      (⟨⟨rest, f⟩, p, (d + (g.payload.length + 4)) % 4294967296, sof, ev⟩, none) := by
  unfold ignoreMarker
  rw [markerLength_render g rest]
  rw [jdiscard_eq (by simp only [List.length_append, render_length]; omega) (by omega)]
  simp [drop_render]

lemma render_getD0 (g : Seg) (rest : List Nat) : (g.render ++ rest).getD 0 0 = 255 := by
  simp [Seg.render]

lemma render_getD1 (g : Seg) (rest : List Nat) : (g.render ++ rest).getD 1 0 = g.marker := by
  simp [Seg.render]

lemma scanStep_skip (cbs : Callbacks) (g : Seg) (rest : List Nat)
    (f : Option Nat) (p d : Nat) (sof : SofHeader) (ev : List Event)
    (hskip : g.skip) (hpos : 0 < p) :
    scanStep cbs ⟨⟨g.render ++ rest, f⟩, p, d, sof, ev⟩ =
      .cont ⟨⟨rest, f⟩, p, (d + (g.payload.length + 4)) % 4294967296, sof, ev⟩ := by
  obtain ⟨hm, hlen⟩ := hskip
  unfold scanStep
  rcases hm with hm | hm | hm | ⟨hm, h5, hne⟩
  · simp only [render_getD0, render_getD1, hm]
    norm_num [hpos, isSOFMarker]
    rw [ignoreMarker_render]
  · simp only [render_getD0, render_getD1, hm]
    norm_num [hpos, isSOFMarker]
    rw [ignoreMarker_render]
  · simp only [render_getD0, render_getD1, hm]
    norm_num [hpos, isSOFMarker]
    rw [ignoreMarker_render]
  · simp only [render_getD0, render_getD1, hm]
    norm_num [hpos, isSOFMarker]
    have hjx : isJFIFPrefixExt (g.render ++ rest) = false := by
      simp only [isJFIFPrefixExt, Seg.render, List.cons_append, List.drop_succ_cons,
        List.drop_zero, List.take_append_of_le_length h5]
      simpa using hne
    by_cases hjf : isJFIFPrefix (g.render ++ rest)
    · rw [if_pos (by simp [hjf])]
      rw [show jfifHeader (g.render ++ rest) + 2 = g.payload.length + 4 from by
        simp [jfifHeader, hjf, markerLength_render]]
      rw [jdiscard_eq (by simp only [List.length_append, render_length]; omega) (by omega)]
      simp [drop_render]
    · rw [if_neg (by simp [hjf, hjx])]
      rw [ignoreMarker_render]

lemma scan_skip_step (cbs : Callbacks) (fuel : Nat) (g : Seg) (rest : List Nat)
    (f : Option Nat) (p d : Nat) (sof : SofHeader) (ev : List Event)
    (hskip : g.skip) (hpos : 0 < p) (hrest : 12 ≤ g.payload.length + rest.length) :
    scanLoop cbs (fuel + 1) ⟨⟨g.render ++ rest, f⟩, p, d, sof, ev⟩ =
      scanLoop cbs fuel ⟨⟨rest, f⟩, p, (d + (g.payload.length + 4)) % 4294967296, sof, ev⟩ :=
  scanLoop_cont fuel (by simp only [List.length_append, render_length]; omega)
    (scanStep_skip cbs g rest f p d sof ev hskip hpos)




lemma scanStep_soi (cbs : Callbacks) (tl : List Nat) (f : Option Nat)
    (p d : Nat) (sof : SofHeader) (ev : List Event) :
    scanStep cbs ⟨⟨255 :: 216 :: tl, f⟩, p, d, sof, ev⟩ =
      .cont ⟨⟨tl, f⟩, (p + 1) % 256, (d + 2) % 4294967296, sof, ev⟩ := by
  unfold scanStep
  norm_num
  rw [jdiscard_eq (by simp) (by omega)]
  simp

lemma scan_soi_step (cbs : Callbacks) (fuel : Nat) (tl : List Nat) (f : Option Nat)
    (p d : Nat) (sof : SofHeader) (ev : List Event) (hlen : 14 ≤ tl.length) :
    scanLoop cbs (fuel + 1) ⟨⟨255 :: 216 :: tl, f⟩, p, d, sof, ev⟩ =
      scanLoop cbs fuel ⟨⟨tl, f⟩, (p + 1) % 256, (d + 2) % 4294967296, sof, ev⟩ :=
  scanLoop_cont fuel (by simp; omega) (scanStep_soi cbs tl f p d sof ev)

lemma renderSegs_cons (g : Seg) (gs : List Seg) :
    renderSegs (g :: gs) = g.render ++ renderSegs gs := by
  simp [renderSegs]

lemma totalLen_cons (g : Seg) (gs : List Seg) :
    totalLen (g :: gs) = (g.payload.length + 4) + totalLen gs := by
  simp [totalLen]

lemma scan_skips (cbs : Callbacks) (gs : List Seg) (fuel : Nat) (rest : List Nat)
    (f : Option Nat) (p : Nat) (sof : SofHeader) (ev : List Event)
    (hgs : ∀ g ∈ gs, g.skip) (hpos : 0 < p) (hrest : 12 ≤ rest.length) :
    ∀ d : Nat, d < 4294967296 →
    scanLoop cbs (gs.length + fuel) ⟨⟨renderSegs gs ++ rest, f⟩, p, d, sof, ev⟩ =
      scanLoop cbs fuel ⟨⟨rest, f⟩, p, (d + totalLen gs) % 4294967296, sof, ev⟩ := by
  induction gs with
  | nil =>
    intro d hd
    simp [renderSegs, totalLen, Nat.mod_eq_of_lt hd]
  | cons g gs ih =>
    intro d hd
    rw [show (g :: gs).length + fuel = (gs.length + fuel) + 1 from by simp; omega]
    rw [renderSegs_cons, List.append_assoc]
    rw [scan_skip_step cbs (gs.length + fuel) g (renderSegs gs ++ rest) f p d sof ev
      (hgs g (by simp)) hpos (by simp only [List.length_append]; omega)]
    rw [ih (fun g hg => hgs g (by simp [hg])) ((d + (g.payload.length + 4)) % 4294967296)
      (Nat.mod_lt _ (by omega))]
    rw [totalLen_cons]
    have heq : ((d + (g.payload.length + 4)) % 4294967296 + totalLen gs) % 4294967296
        = (d + (g.payload.length + 4 + totalLen gs)) % 4294967296 := by
      rw [Nat.mod_add_mod, Nat.add_assoc]
    rw [heq]

lemma scanStep_dht (cbs : Callbacks) (rest : List Nat) (f : Option Nat)
    (d : Nat) (sof : SofHeader) (ev : List Event) :
    scanStep cbs ⟨⟨255 :: 0xC4 :: rest, f⟩, 1, d, sof, ev⟩ =
      .stop (.err .endOfImage) ⟨⟨255 :: 0xC4 :: rest, f⟩, 1, d, sof, ev⟩ := by
  unfold scanStep
  simp [isSOFMarker]

lemma scanStep_sof (cbs : Callbacks) (g : Seg) (rest : List Nat)
    (f : Option Nat) (p d : Nat) (sof : SofHeader) (ev : List Event)
    (hm : isSOFMarker g.marker = true) (hpos : 0 < p) :
    scanStep cbs ⟨⟨g.render ++ rest, f⟩, p, d, sof, ev⟩ =
      .stop .ok ⟨⟨rest, f⟩, p, (d + (g.payload.length + 4)) % 4294967296,
        (if p = 1 then
          ⟨be16 ((g.render ++ rest).getD 5 0) ((g.render ++ rest).getD 6 0),
           be16 ((g.render ++ rest).getD 7 0) ((g.render ++ rest).getD 8 0),
           (g.render ++ rest).getD 9 0⟩
         else sof), ev⟩ := by
  have h216 := isSOFMarker_ne_216 hm
  unfold scanStep
  simp only [render_getD0, render_getD1, h216, hm, hpos, ne_eq, not_true_eq_false,
    if_false, if_true, ite_true, ite_false, gt_iff_lt, decide_True]
  unfold readSOF
  by_cases hp1 : p = 1
  · subst hp1
    simp only [if_pos rfl]
    rw [markerLength_render g rest]
    rw [show g.payload.length + 2 + 2 = g.payload.length + 4 from by omega]
    rw [jdiscard_eq (by simp [render_length]) (by omega)]
    simp [drop_render, terminal]
  · simp only [hp1, if_false, ite_false]
    rw [markerLength_render g rest]
    rw [show g.payload.length + 2 + 2 = g.payload.length + 4 from by omega]
    rw [jdiscard_eq (by simp [render_length]) (by omega)]
    simp [drop_render, terminal]




lemma jdiscard_events (s : JpegState) (n : Nat) : (jdiscard s n).1.events = s.events := by
  unfold jdiscard
  split <;> rfl

lemma jdiscardI_events (s : JpegState) (n : Int) : (jdiscardI s n).1.events = s.events := by
  unfold jdiscardI
  split
  · rfl
  · exact jdiscard_events s n.toNat

lemma ignoreMarker_events (s : JpegState) : (ignoreMarker s).1.events = s.events :=
  jdiscard_events s _

lemma readSOF_events (s : JpegState) : (readSOF s).1.events = s.events := by
  unfold readSOF
  rw [jdiscard_events]
  split <;> rfl

lemma readExif_events (cbs : Callbacks) (s : JpegState) (e : Event) (he : e ∈ s.events) :
    e ∈ (readExif cbs s).1.events := by
  unfold readExif
  cases hcb : cbs.exifCB with
  | none =>
    cases hd : (jdiscard s 10).2 with
    | some e2 => simp [hcb, hd, jdiscard_events, he]
    | none =>
      cases hpk : peek 8 (jdiscard s 10).1.stream with
      | error c => simp [hcb, hd, hpk, jdiscard_events, he]
      | ok buf => simp [hcb, hd, hpk, jdiscard_events, jdiscardI_events, he]
  | some cb =>
    cases hd : (jdiscard s 10).2 with
    | some e2 => simp [hcb, hd, jdiscard_events, he]
    | none =>
      cases hpk : peek 8 (jdiscard s 10).1.stream with
      | error c => simp [hcb, hd, hpk, jdiscard_events, he]
      | ok buf =>
        simp only [hcb, hd, hpk]
        split <;> simp [jdiscard_events, jdiscardI_events, List.mem_cons, he]

lemma readXMP_events (cbs : Callbacks) (s : JpegState) (e : Event) (he : e ∈ s.events) :
    e ∈ (readXMP cbs s).1.events := by
  unfold readXMP
  cases hcb : cbs.xmpCB with
  | none =>
    cases hd : (jdiscard s 33).2 with
    | some e2 => simp [hcb, hd, jdiscard_events, he]
    | none => simp [hcb, hd, jdiscard_events, jdiscardI_events, he]
  | some cb =>
    cases hd : (jdiscard s 33).2 with
    | some e2 => simp [hcb, hd, jdiscard_events, he]
    | none =>
      simp only [hcb, hd]
      split <;> simp [jdiscard_events, jdiscardI_events, List.mem_cons, he]

lemma readAPP1_events (cbs : Callbacks) (s : JpegState) (e : Event) (he : e ∈ s.events) :
    e ∈ (readAPP1 cbs s).1.events := by
  unfold readAPP1
  by_cases h1 : isExifPrefix s.stream.bytes
  · simpa [h1] using readExif_events cbs s e he
  · by_cases h2 : isXMPPrefix s.stream.bytes
    · simpa [h1, h2] using readXMP_events cbs s e he
    · by_cases h3 : isXMPPrefixExt s.stream.bytes
      · simpa [h1, h2, h3, ignoreMarker_events] using he
      · simpa [h1, h2, h3, ignoreMarker_events] using he

lemma scanStep_events (cbs : Callbacks) (s : JpegState) (e : Event) (he : e ∈ s.events) :
    e ∈ (scanStep cbs s).state.events := by
  unfold scanStep
  by_cases h0 : s.stream.bytes.getD 0 0 = 255
  case neg =>
    simp only [h0, StepRes.state, jdiscard_events, ignoreMarker_events, readSOF_events, ne_eq,
      not_true_eq_false, not_false_eq_true, ite_true, ite_false, eq_self_iff_true]
    exact he
  case pos =>
  by_cases h1 : s.stream.bytes.getD 1 0 = 216
  case pos =>
    simp only [h0, h1, StepRes.state, jdiscard_events, ignoreMarker_events, readSOF_events, ne_eq,
      not_true_eq_false, not_false_eq_true, ite_true, ite_false, eq_self_iff_true]
    exact he
  case neg =>
  by_cases h2 : 0 < s.pos
  case neg =>
    simp only [h0, h1, h2, StepRes.state, jdiscard_events, ignoreMarker_events, readSOF_events, ne_eq,
      not_true_eq_false, not_false_eq_true, ite_true, ite_false, eq_self_iff_true]
    exact he
  case pos =>
  by_cases h3 : isSOFMarker (s.stream.bytes.getD 1 0) = true
  case pos =>
    simp only [h0, h1, h2, h3, StepRes.state, jdiscard_events, ignoreMarker_events, readSOF_events, ne_eq,
      not_true_eq_false, not_false_eq_true, ite_true, ite_false, eq_self_iff_true]
    exact he
  case neg =>
  by_cases h4 : s.stream.bytes.getD 1 0 = 196
  case pos =>
    by_cases h4a : s.pos = 1
    · simp only [h0, h1, h2, h3, h4, h4a, StepRes.state, jdiscard_events, ignoreMarker_events, readSOF_events, ne_eq,
      not_true_eq_false, not_false_eq_true, ite_true, ite_false, eq_self_iff_true]
      exact he
    · simp only [h0, h1, h2, h3, h4, h4a, StepRes.state, jdiscard_events, ignoreMarker_events, readSOF_events, ne_eq,
      not_true_eq_false, not_false_eq_true, ite_true, ite_false, eq_self_iff_true]
      exact he
  case neg =>
  by_cases h5 : s.stream.bytes.getD 1 0 = 217
  case pos =>
    by_cases h5a : s.pos - 1 = 1
    · simp only [h0, h1, h2, h3, h4, h5, h5a, StepRes.state, jdiscard_events, ignoreMarker_events, readSOF_events, ne_eq,
      not_true_eq_false, not_false_eq_true, ite_true, ite_false, eq_self_iff_true]
      exact he
    · simp only [h0, h1, h2, h3, h4, h5, h5a, StepRes.state, jdiscard_events, ignoreMarker_events, readSOF_events, ne_eq,
      not_true_eq_false, not_false_eq_true, ite_true, ite_false, eq_self_iff_true]
      exact he
  case neg =>
  by_cases h6 : s.stream.bytes.getD 1 0 = 219
  case pos =>
    simp only [h0, h1, h2, h3, h4, h5, h6, StepRes.state, jdiscard_events, ignoreMarker_events, readSOF_events, ne_eq,
      not_true_eq_false, not_false_eq_true, ite_true, ite_false, eq_self_iff_true]
    exact he
  case neg =>
  by_cases h7 : s.stream.bytes.getD 1 0 = 221
  case pos =>
    simp only [h0, h1, h2, h3, h4, h5, h6, h7, StepRes.state, jdiscard_events, ignoreMarker_events, readSOF_events, ne_eq,
      not_true_eq_false, not_false_eq_true, ite_true, ite_false, eq_self_iff_true]
    exact he
  case neg =>
  by_cases h8 : s.stream.bytes.getD 1 0 = 224
  case pos =>
    by_cases h8a : (isJFIFPrefix s.stream.bytes || isJFIFPrefixExt s.stream.bytes) = true
    · simp only [h0, h1, h2, h3, h4, h5, h6, h7, h8, h8a, StepRes.state, jdiscard_events, ignoreMarker_events, readSOF_events, ne_eq,
      not_true_eq_false, not_false_eq_true, ite_true, ite_false, eq_self_iff_true]
      exact he
    · simp only [h0, h1, h2, h3, h4, h5, h6, h7, h8, h8a, StepRes.state, jdiscard_events, ignoreMarker_events, readSOF_events, ne_eq,
      not_true_eq_false, not_false_eq_true, ite_true, ite_false, eq_self_iff_true]
      exact he
  case neg =>
  by_cases h9 : s.stream.bytes.getD 1 0 = 225
  case pos =>
    simp only [h0, h1, h2, h3, h4, h5, h6, h7, h8, h9, StepRes.state, jdiscard_events, ignoreMarker_events, readSOF_events, ne_eq,
      not_true_eq_false, not_false_eq_true, ite_true, ite_false, eq_self_iff_true]
    exact readAPP1_events cbs s e he
  case neg =>
  by_cases h10 : s.stream.bytes.getD 1 0 = 226
  case pos =>
    simp only [h0, h1, h2, h3, h4, h5, h6, h7, h8, h9, h10, StepRes.state, jdiscard_events, ignoreMarker_events, readSOF_events, ne_eq,
      not_true_eq_false, not_false_eq_true, ite_true, ite_false, eq_self_iff_true]
    exact he
  case neg =>
  by_cases h11 : s.stream.bytes.getD 1 0 = 231 ∨ s.stream.bytes.getD 1 0 = 232 ∨
      s.stream.bytes.getD 1 0 = 233 ∨ s.stream.bytes.getD 1 0 = 234
  case pos =>
    simp only [h0, h1, h2, h3, h4, h5, h6, h7, h8, h9, h10, h11, StepRes.state, jdiscard_events, ignoreMarker_events, readSOF_events, ne_eq,
      not_true_eq_false, not_false_eq_true, ite_true, ite_false, eq_self_iff_true]
    exact he
  case neg =>
  by_cases h12 : s.stream.bytes.getD 1 0 = 237
  case pos =>
    simp only [h0, h1, h2, h3, h4, h5, h6, h7, h8, h9, h10, h11, h12, StepRes.state, jdiscard_events, ignoreMarker_events, readSOF_events, ne_eq,
      not_true_eq_false, not_false_eq_true, ite_true, ite_false, eq_self_iff_true]
    exact he
  case neg =>
  by_cases h13 : s.stream.bytes.getD 1 0 = 238
  case pos =>
    simp only [h0, h1, h2, h3, h4, h5, h6, h7, h8, h9, h10, h11, h12, h13, StepRes.state, jdiscard_events, ignoreMarker_events, readSOF_events, ne_eq,
      not_true_eq_false, not_false_eq_true, ite_true, ite_false, eq_self_iff_true]
    exact he
  case neg =>
    simp only [h0, h1, h2, h3, h4, h5, h6, h7, h8, h9, h10, h11, h12, h13, StepRes.state, jdiscard_events, ignoreMarker_events, readSOF_events, ne_eq,
      not_true_eq_false, not_false_eq_true, ite_true, ite_false, eq_self_iff_true]
    exact he

lemma scanLoop_events_mono (cbs : Callbacks) :
    ∀ (fuel : Nat) (s : JpegState) (e : Event), e ∈ s.events → e ∈ (scanLoop cbs fuel s).2.events := by
  intro fuel
  induction fuel with
  | zero => intro s e he; simpa [scanLoop] using he
  | succ n ih =>
    intro s e he
    rw [scanLoop]
    cases hp : peek 16 s.stream with
    | error c => simpa using he
    | ok buf =>
      cases hs : scanStep cbs s with
      | cont s' =>
        simp only [hs]
        refine ih s' e ?_
        have hst := scanStep_events cbs s e he
        rw [hs] at hst
        exact hst
      | stop o s' =>
        simp only [hs]
        have hst := scanStep_events cbs s e he
        rw [hs] at hst
        exact hst




lemma readExif_run (cbs : Callbacks) (cb : ExifHeader → List Nat → Nat × Option Nat)
    (hcb : cbs.exifCB = some cb) (hi lo : Nat) (tl : List Nat)
    (f : Option Nat) (p d : Nat) (sof : SofHeader) (ev : List Event)
    (htl : 8 ≤ tl.length) :
    readExif cbs
        ⟨⟨255 :: 225 :: hi :: lo :: 69 :: 120 :: 105 :: 102 :: 0 :: 0 :: tl, f⟩, p, d, sof, ev⟩ =
      (⟨⟨tl.drop (min (cb (exifHeaderAt hi lo d tl) tl).1 tl.length), f⟩, p,
        (d + 10) % 4294967296, sof, .exifCall (exifHeaderAt hi lo d tl) :: ev⟩,
       Option.map JErr.cbErr (cb (exifHeaderAt hi lo d tl) tl).2) := by
  unfold readExif
  rw [jdiscard_eq (by simp) (by omega)]
  simp only [List.drop_succ_cons, List.drop_zero]
  rw [peek_ok (by simpa using htl)]
  simp only [hcb, markerLength, List.getD_cons_zero, List.getD_cons_succ, be16]
  rw [getD_take (by omega), getD_take (by omega), getD_take (by omega), getD_take (by omega),
    getD_take (by omega), getD_take (by omega)]
  have heq : NewExifHeader (binaryOrder (tl.getD 0 0) (tl.getD 1 0))
      ((binaryOrder (tl.getD 0 0) (tl.getD 1 0)).uint32 (tl.getD 4 0) (tl.getD 5 0) (tl.getD 6 0)
        (tl.getD 7 0))
      ((d + 10) % 4294967296)
      ((((256 * hi + lo : Nat) : Int) - 8) % 4294967296).toNat
      imageJPEG = exifHeaderAt hi lo d tl := rfl
  rw [heq]
  cases hr : (cb (exifHeaderAt hi lo d tl) tl).2 with
  | none => simp [jdiscardI, jdiscard, hr]
  | some c => simp [hr]

lemma scanStep_exif (cbs : Callbacks) (cb : ExifHeader → List Nat → Nat × Option Nat)
    (hcb : cbs.exifCB = some cb) (hi lo : Nat) (tl : List Nat)
    (f : Option Nat) (p d : Nat) (sof : SofHeader) (ev : List Event)
    (hpos : 0 < p) (htl : 8 ≤ tl.length) :
    scanStep cbs
        ⟨⟨255 :: 225 :: hi :: lo :: 69 :: 120 :: 105 :: 102 :: 0 :: 0 :: tl, f⟩, p, d, sof, ev⟩ =
      .cont ⟨⟨tl.drop (min (cb (exifHeaderAt hi lo d tl) tl).1 tl.length), f⟩, p,
        (d + 10) % 4294967296, sof, .exifCall (exifHeaderAt hi lo d tl) :: ev⟩ := by
  unfold scanStep
  norm_num [hpos, isSOFMarker]
  unfold readAPP1
  rw [if_pos (by simp [isExifPrefix])]
  rw [readExif_run cbs cb hcb hi lo tl f p d sof ev htl]





end Jpeg

namespace Jpeg

open ImageMeta

/-- Claim C1 (amended): on a matched Exif APP1 segment with declared
length `L = 256*hi+lo`, `readExif` computes the payload length `L - 8`
(as a `uint32`), discards exactly the 10 marker-plus-prefix bytes, builds
the header from the peeked byte-order mark and the first-IFD offset
decoded in that byte order, stamps it with the cursor position after the
prefix (the TIFF block origin) and the computed payload length, and
invokes the Exif callback with the stream positioned at the TIFF block
start.  After the callback returns, however, the remaining-byte count is
set to zero, so the bytes of the segment the callback did not consume
are NOT discarded: the resulting stream is the TIFF block minus only
what the callback itself consumed. -/
theorem claim_C1_amended (cb : ExifHeader → List Nat → Nat × Option Nat)
    (x : Option (List Nat → Nat × Option Nat)) (hi lo : Nat) (tl : List Nat)
    (f : Option Nat) (p d : Nat) (sof : SofHeader) (ev : List Event)
    (htl : 8 ≤ tl.length) :
    readExif ⟨some cb, x⟩
        ⟨⟨255 :: 225 :: hi :: lo :: 69 :: 120 :: 105 :: 102 :: 0 :: 0 :: tl, f⟩, p, d, sof, ev⟩ =
      (⟨⟨tl.drop (min (cb (exifHeaderAt hi lo d tl) tl).1 tl.length), f⟩, p,
        (d + 10) % 4294967296, sof, .exifCall (exifHeaderAt hi lo d tl) :: ev⟩,
       Option.map JErr.cbErr (cb (exifHeaderAt hi lo d tl) tl).2) :=
  readExif_run ⟨some cb, x⟩ cb rfl hi lo tl f p d sof ev htl

/-- Counterexample to claim C1 as stated: an Exif APP1 segment of
declared length 16 (8 TIFF bytes after the prefix) with a callback that
consumes nothing.  The claim requires the scanner to discard, after the
callback, the segment bytes the callback did not consume, which would
leave the stream empty (`drop (2+16)`); the code instead leaves all 8
TIFF bytes in place. -/
theorem claim_C1_counterexample :
    (readExif ⟨some (fun _ _ => (0, none)), none⟩
        ⟨⟨[255, 225, 0, 16, 69, 120, 105, 102, 0, 0, 73, 73, 42, 0, 8, 0, 0, 0], none⟩,
         1, 2, {}, []⟩).1.stream.bytes = [73, 73, 42, 0, 8, 0, 0, 0] ∧
    ([73, 73, 42, 0, 8, 0, 0, 0] : List Nat) ≠
      List.drop (2 + 16) [255, 225, 0, 16, 69, 120, 105, 102, 0, 0, 73, 73, 42, 0, 8, 0, 0, 0] := by
  constructor
  · rfl
  · decide

/-- Witness for C1 (amended) at a concrete little-endian Exif segment. -/
theorem claim_C1_witness :
    (8 : Nat) ≤ ([73, 73, 42, 0, 8, 0, 0, 0] : List Nat).length ∧
    readExif ⟨some (fun _ _ => (0, none)), none⟩
        ⟨⟨255 :: 225 :: 0 :: 16 :: 69 :: 120 :: 105 :: 102 :: 0 :: 0 :: [73, 73, 42, 0, 8, 0, 0, 0],
          none⟩, 1, 2, {}, []⟩ =
      (⟨⟨([73, 73, 42, 0, 8, 0, 0, 0] : List Nat).drop
            (min ((fun (_ : ExifHeader) (_ : List Nat) => ((0 : Nat), (none : Option Nat)))
                (exifHeaderAt 0 16 2 [73, 73, 42, 0, 8, 0, 0, 0]) [73, 73, 42, 0, 8, 0, 0, 0]).1
              ([73, 73, 42, 0, 8, 0, 0, 0] : List Nat).length), none⟩, 1,
        (2 + 10) % 4294967296, {}, .exifCall (exifHeaderAt 0 16 2 [73, 73, 42, 0, 8, 0, 0, 0]) :: []⟩,
       Option.map JErr.cbErr ((fun (_ : ExifHeader) (_ : List Nat) => ((0 : Nat), (none : Option Nat)))
          (exifHeaderAt 0 16 2 [73, 73, 42, 0, 8, 0, 0, 0]) [73, 73, 42, 0, 8, 0, 0, 0]).2) :=
  ⟨by decide,
   claim_C1_amended (fun _ _ => (0, none)) none 0 16 [73, 73, 42, 0, 8, 0, 0, 0] none 1 2 {} []
     (by decide)⟩

end Jpeg

namespace Jpeg

open ImageMeta

/-- Counterexample to claim C3 as stated: a well-formed single-image
JPEG stream with no Exif segment (SOI, DQT, SOF0, DHT, SOS+entropy,
EOI), scanned with both callbacks installed.  The claim requires the
scan to return the end-of-image sentinel; the code instead stops at the
first SOF marker and returns nil (`ok`).  No callback is invoked. -/
theorem claim_C3_counterexample :
    SingleImageNoExifJPEG c3bytes ∧
    (ScanJPEG obsCbs 10 ⟨c3bytes, none⟩).1 = .ok ∧
    (ScanJPEG obsCbs 10 ⟨c3bytes, none⟩).1 ≠ .err .endOfImage ∧
    (ScanJPEG obsCbs 10 ⟨c3bytes, none⟩).2.events = [] := by
  refine ⟨⟨[⟨0xDB, [1, 2]⟩, ⟨0xC0, [8, 0, 100, 0, 200, 3, 1, 17, 0]⟩, ⟨0xC4, [0, 1]⟩],
      [10, 20, 30, 40, 50, 60, 70, 80, 90, 100, 110, 120], rfl, by decide, by decide,
      ⟨0xC0, [8, 0, 100, 0, 200, 3, 1, 17, 0]⟩, by decide, by decide⟩, ?_, ?_, ?_⟩
  · decide
  · decide
  · decide

/-- Claim C3 (amended): scanning a stream consisting of one SOI, any
segments the scanner continues past, and then the first frame-level
marker — an SOF or a DHT segment — terminates with either the nil
return (when an SOF is reached first) or the end-of-image sentinel
(when a DHT is reached first at outermost nesting), and in both cases
neither the Exif nor the XMP callback is ever invoked. -/
theorem claim_C3_amended (cbs : Callbacks) (gs : List Seg) (stp : Seg) (rest : List Nat)
    (f : Option Nat)
    (hgs : ∀ g ∈ gs, g.skip)
    (hstop : isSOFMarker stp.marker = true ∨ stp.marker = 0xC4)
    (hrest : 12 ≤ stp.payload.length + rest.length) :
    ((ScanJPEG cbs (1 + gs.length + 1)
        ⟨255 :: 216 :: (renderSegs gs ++ (stp.render ++ rest)), f⟩).1 = .ok ∨
     (ScanJPEG cbs (1 + gs.length + 1)
        ⟨255 :: 216 :: (renderSegs gs ++ (stp.render ++ rest)), f⟩).1 = .err .endOfImage) ∧
    (ScanJPEG cbs (1 + gs.length + 1)
        ⟨255 :: 216 :: (renderSegs gs ++ (stp.render ++ rest)), f⟩).2.events = [] := by
  unfold ScanJPEG initState
  rw [show 1 + gs.length + 1 = (gs.length + 1) + 1 from by omega]
  rw [scan_soi_step cbs (gs.length + 1) _ f 0 0 {} []
    (by simp only [List.length_append, render_length]; omega)]
  norm_num
  rw [scan_skips cbs gs 1 (stp.render ++ rest) f 1 {} [] hgs (by norm_num)
    (by simp only [List.length_append, render_length]; omega) 2 (by norm_num)]
  rcases hstop with hm | hm
  · rw [scanLoop_stop 0 (by simp only [List.length_append, render_length]; omega)
      (scanStep_sof cbs stp rest f 1 ((2 + totalLen gs) % 4294967296) {} [] hm (by norm_num))]
    exact ⟨Or.inl rfl, rfl⟩
  · have hrender : stp.render ++ rest =
        255 :: 0xC4 :: (((stp.payload.length + 2) / 256) :: ((stp.payload.length + 2) % 256) ::
          (stp.payload ++ rest)) := by
      simp [Seg.render, hm]
    rw [hrender]
    rw [scanLoop_stop 0 (by simp; omega)
      (scanStep_dht cbs _ f ((2 + totalLen gs) % 4294967296) {} [])]
    exact ⟨Or.inr rfl, rfl⟩

/-- Witness for C3 (amended): SOI, one DQT segment, then an SOF0
segment; the scan returns nil or the sentinel and logs no callback. -/
theorem claim_C3_witness :
    (∀ g ∈ [(⟨0xDB, [1, 2]⟩ : Seg)], g.skip) ∧
    (isSOFMarker (⟨0xC0, [8, 0, 100, 0, 200, 3, 1, 17, 0]⟩ : Seg).marker = true ∨
      (⟨0xC0, [8, 0, 100, 0, 200, 3, 1, 17, 0]⟩ : Seg).marker = 0xC4) ∧
    12 ≤ (⟨0xC0, [8, 0, 100, 0, 200, 3, 1, 17, 0]⟩ : Seg).payload.length +
      (List.replicate 12 0).length ∧
    (((ScanJPEG obsCbs (1 + [(⟨0xDB, [1, 2]⟩ : Seg)].length + 1)
        ⟨255 :: 216 :: (renderSegs [⟨0xDB, [1, 2]⟩] ++
          ((⟨0xC0, [8, 0, 100, 0, 200, 3, 1, 17, 0]⟩ : Seg).render ++ List.replicate 12 0)),
         none⟩).1 = .ok ∨
      (ScanJPEG obsCbs (1 + [(⟨0xDB, [1, 2]⟩ : Seg)].length + 1)
        ⟨255 :: 216 :: (renderSegs [⟨0xDB, [1, 2]⟩] ++
          ((⟨0xC0, [8, 0, 100, 0, 200, 3, 1, 17, 0]⟩ : Seg).render ++ List.replicate 12 0)),
         none⟩).1 = .err .endOfImage) ∧
     (ScanJPEG obsCbs (1 + [(⟨0xDB, [1, 2]⟩ : Seg)].length + 1)
        ⟨255 :: 216 :: (renderSegs [⟨0xDB, [1, 2]⟩] ++
          ((⟨0xC0, [8, 0, 100, 0, 200, 3, 1, 17, 0]⟩ : Seg).render ++ List.replicate 12 0)),
         none⟩).2.events = []) :=
  ⟨by decide, Or.inl (by decide), by decide,
   claim_C3_amended obsCbs [⟨0xDB, [1, 2]⟩] ⟨0xC0, [8, 0, 100, 0, 200, 3, 1, 17, 0]⟩
     (List.replicate 12 0) none (by decide) (Or.inl (by decide)) (by decide)⟩

/-- Counterexample to claim C5 as stated: SOI, an APP7 segment (one of
the "irrelevant" segments the claim lists), then an Exif APP1 segment,
scanned with an Exif callback installed.  The APP7 segment is discarded
by its declared length, but the scan then returns instead of
continuing: the Exif segment is still unread in the stream and the Exif
callback is never invoked. -/
theorem claim_C5_counterexample :
    (ScanJPEG obsCbs 10 ⟨c5bytes, none⟩).1 = .ok ∧
    (ScanJPEG obsCbs 10 ⟨c5bytes, none⟩).2.events = [] ∧
    (ScanJPEG obsCbs 10 ⟨c5bytes, none⟩).2.stream.bytes = c5exifSeg ∧
    isExifPrefix c5exifSeg = true := by
  refine ⟨?_, ?_, ?_, by decide⟩
  · decide
  · decide
  · decide

/-- Claim C5 (amended): when the segments before the Exif APP1 segment
are of the kinds the scanner continues past (DQT, APP0, APP2, APP13),
each is discarded by exactly its declared length and the scan still
reaches the Exif segment: the Exif callback is invoked with the header
built at the TIFF block start (APP7-APP10, APP14 and DRI segments are
instead discarded and terminate the scan, so an Exif segment after one
of them is never reached). -/
theorem claim_C5_amended (cb : ExifHeader → List Nat → Nat × Option Nat)
    (x : Option (List Nat → Nat × Option Nat)) (gs : List Seg) (hi lo : Nat) (tl : List Nat)
    (f : Option Nat) (k : Nat)
    (hgs : ∀ g ∈ gs, g.skip) (htl : 8 ≤ tl.length) :
    Event.exifCall (exifHeaderAt hi lo ((2 + totalLen gs) % 4294967296) tl) ∈
      (ScanJPEG ⟨some cb, x⟩ (1 + gs.length + (1 + k))
        ⟨255 :: 216 :: (renderSegs gs ++
          255 :: 225 :: hi :: lo :: 69 :: 120 :: 105 :: 102 :: 0 :: 0 :: tl), f⟩).2.events := by
  unfold ScanJPEG initState
  rw [show 1 + gs.length + (1 + k) = (gs.length + (1 + k)) + 1 from by omega]
  rw [scan_soi_step _ (gs.length + (1 + k)) _ f 0 0 {} []
    (by simp only [List.length_append, List.length_cons]; omega)]
  norm_num
  rw [scan_skips _ gs (1 + k) _ f 1 {} [] hgs (by norm_num)
    (by simp only [List.length_cons]; omega) 2 (by norm_num)]
  rw [show 1 + k = k + 1 from by omega]
  rw [scanLoop_cont k (by simp only [List.length_cons]; omega)
    (scanStep_exif ⟨some cb, x⟩ cb rfl hi lo tl f 1 ((2 + totalLen gs) % 4294967296) {} []
      (by norm_num) htl)]
  exact scanLoop_events_mono ⟨some cb, x⟩ k _ _ (List.mem_cons_self _ _)

/-- Witness for C5 (amended): SOI, one DQT segment, then a concrete
little-endian Exif APP1 segment; the callback invocation is logged. -/
theorem claim_C5_witness :
    (∀ g ∈ [(⟨0xDB, [1, 2]⟩ : Seg)], g.skip) ∧
    (8 : Nat) ≤ ([73, 73, 42, 0, 8, 0, 0, 0] : List Nat).length ∧
    Event.exifCall (exifHeaderAt 0 16 ((2 + totalLen [⟨0xDB, [1, 2]⟩]) % 4294967296)
        [73, 73, 42, 0, 8, 0, 0, 0]) ∈
      (ScanJPEG ⟨some (fun _ _ => (0, none)), none⟩
        (1 + [(⟨0xDB, [1, 2]⟩ : Seg)].length + (1 + 0))
        ⟨255 :: 216 :: (renderSegs [⟨0xDB, [1, 2]⟩] ++
          255 :: 225 :: 0 :: 16 :: 69 :: 120 :: 105 :: 102 :: 0 :: 0 ::
            [73, 73, 42, 0, 8, 0, 0, 0]), none⟩).2.events :=
  ⟨by decide, by decide,
   claim_C5_amended (fun _ _ => (0, none)) none [⟨0xDB, [1, 2]⟩] 0 16
     [73, 73, 42, 0, 8, 0, 0, 0] none 0 (by decide) (by decide)⟩

end Jpeg

namespace Jpeg

open ImageMeta

/-- Claim C9 (amended): whenever the 16-byte lookahead cannot be filled
— whether because the start-of-image signature region is short or
because the underlying reader fails with a genuine I/O error — the scan
returns `ErrNoJPEGMarker`.  The reader's own error value is replaced,
not propagated, and this happens at any point of the scan, not only
before the signature was found. -/
theorem claim_C9_amended (cbs : Callbacks) (fuel : Nat) (s : JpegState)
    (h : s.stream.bytes.length < 16) :
    scanLoop cbs (fuel + 1) s = (.err .noJPEGMarker, s) := by
  rw [scanLoop, peek_fail h]

/-- Counterexample to claim C9 as stated: a stream whose reader fails
with its own error (code 42) right after the start-of-image marker.  The
claim requires the reader's error to propagate unchanged and forbids
`ErrNoJPEGMarker` when the signature did appear; the code consumes the
SOI (final nesting 1, 2 bytes discarded) and then returns
`ErrNoJPEGMarker` instead of error 42. -/
theorem claim_C9_counterexample :
    ScanJPEG {} 5 ⟨[255, 216] ++ List.replicate 14 0, some 42⟩ =
      (.err .noJPEGMarker, ⟨⟨List.replicate 14 0, some 42⟩, 1, 2, {}, []⟩) ∧
    JErr.noJPEGMarker ≠ JErr.ioErr 42 := by
  constructor
  · rfl
  · decide

/-- Witness for C9 (amended) at a concrete 3-byte stream. -/
theorem claim_C9_witness :
    (⟨⟨[1, 2, 3], some 7⟩, 0, 0, {}, []⟩ : JpegState).stream.bytes.length < 16 ∧
    scanLoop {} 4 ⟨⟨[1, 2, 3], some 7⟩, 0, 0, {}, []⟩ =
      (.err .noJPEGMarker, ⟨⟨[1, 2, 3], some 7⟩, 0, 0, {}, []⟩) :=
  ⟨by decide, claim_C9_amended {} 3 ⟨⟨[1, 2, 3], some 7⟩, 0, 0, {}, []⟩ (by decide)⟩

/-- Claim C8: the deferred recover at the top of `ScanJPEG` converts any
panic raised during the scan into an ordinary error return, and passes
normal returns through unchanged.  Every panic the scanner itself can
raise on malformed or truncated input is a Go runtime fault (index out
of range during classification), and runtime faults satisfy the `error`
interface, so they fall under the `errValue` case and are returned as
the function's error value rather than escaping to the caller. -/
theorem claim_C8_recover (e : JErr) (r : Option JErr) :
    scanRecover (.panicked (.errValue e)) = .returns (some e) ∧
    scanRecover (.ret r) = .returns r :=
  ⟨rfl, rfl⟩

end Jpeg

namespace Exif

open ImageMeta

/-- Claim C7: looking up a key that is absent from the tag map returns
the zero tag together with `ErrEmptyTag`, leaves the result object (and
its tag map) unchanged, and being a total function it cannot panic or
invalidate anything. -/
theorem claim_C7_get_tag_miss (d : Data) (ifd : IfdType) (ifdIndex : Nat) (tagID : Nat)
    (h : d.tagMap.lookup (NewKey ifd ifdIndex tagID) = none) :
    d.GetTag ifd ifdIndex tagID = (d, {}, some .emptyTag) := by
  unfold Data.GetTag
  rw [h]

/-- Witness for C7: an empty tag map misses every key. -/
theorem claim_C7_witness :
    (⟨⟨0, 0, .big⟩, [], imageJPEG⟩ : Data).tagMap.lookup (NewKey .ifd0 0 271) = none ∧
    Data.GetTag ⟨⟨0, 0, .big⟩, [], imageJPEG⟩ .ifd0 0 271 =
      (⟨⟨0, 0, .big⟩, [], imageJPEG⟩, {}, some .emptyTag) :=
  ⟨rfl, claim_C7_get_tag_miss ⟨⟨0, 0, .big⟩, [], imageJPEG⟩ .ifd0 0 271 rfl⟩

/-- Claim C10: for ASCII, ASCII-without-NUL and byte tags, the generic
accessor returns the decoded string clamped to its first 64 bytes (when
the string is no longer than 64 this is the whole string, since taking
64 of a shorter list is the identity); for type codes outside the
supported classes it returns nil. -/
theorem claim_C10_get_tag_value (P : ValueParsers) (t : Tag)
    (hascii : t.tagType = .ascii ∨ t.tagType = .asciiNoNul ∨ t.tagType = .byte) :
    GetTagValue P t = some (.str ((P.parseASCII t).take 64)) ∧
    ((P.parseASCII t).take 64).length ≤ 64 ∧
    ((P.parseASCII t).length ≤ 64 → (P.parseASCII t).take 64 = P.parseASCII t) ∧
    (∀ t' : Tag, t'.tagType = .undef ∨ t'.tagType = .invalid → GetTagValue P t' = none) := by
  refine ⟨?_, ?_, ?_, ?_⟩
  · rcases hascii with h | h | h <;>
      · unfold GetTagValue
        rw [h]
        by_cases hl : (P.parseASCII t).length > 64
        · simp [hl]
        · rw [if_neg hl]
          rw [List.take_of_length_le (by omega)]
  · simp [List.length_take]
  · intro hle
    exact List.take_of_length_le hle
  · intro t' h'
    rcases h' with h' | h' <;>
      · unfold GetTagValue
        rw [h']

/-- Witness for C10: a long ASCII tag is clamped to 64 bytes and an
undefined-typed tag yields nil. -/
theorem claim_C10_witness :
    ((⟨271, .ascii, 1, 0⟩ : Tag).tagType = .ascii ∨
      (⟨271, .ascii, 1, 0⟩ : Tag).tagType = .asciiNoNul ∨
      (⟨271, .ascii, 1, 0⟩ : Tag).tagType = .byte) ∧
    (GetTagValue ⟨fun _ => List.replicate 100 65, fun _ => 0, fun _ => [], fun _ => 0,
        fun _ => [], fun _ => [], fun _ => []⟩ ⟨271, .ascii, 1, 0⟩ =
      some (.str ((List.replicate 100 65).take 64)) ∧
    ((List.replicate (100 : Nat) 65).take 64).length ≤ 64 ∧
    ((List.replicate (100 : Nat) 65).length ≤ 64 →
      (List.replicate (100 : Nat) 65).take 64 = List.replicate 100 65) ∧
    (∀ t' : Tag, t'.tagType = .undef ∨ t'.tagType = .invalid →
      GetTagValue ⟨fun _ => List.replicate 100 65, fun _ => 0, fun _ => [], fun _ => 0,
        fun _ => [], fun _ => [], fun _ => []⟩ t' = none)) :=
  ⟨Or.inl rfl,
   claim_C10_get_tag_value _ ⟨271, .ascii, 1, 0⟩ (Or.inl rfl)⟩

end Exif

namespace Exif

open ImageMeta

/-- Counterexample to claim C2 as stated: a valid header (big-endian)
whose first-directory designator is the null IFD.  The claim requires
`ParseExif` to fail with the invalid-header error and return no result
object; the code instead replaces the null designator with the primary
IFD, starts resolution, and returns a result object with no
invalid-header error. -/
theorem claim_C2_counterexample :
    (⟨.big, 8, 0, 100, .nullIFD, imageJPEG⟩ : ExifHeader).IsValid = true ∧
    (⟨.big, 8, 0, 100, .nullIFD, imageJPEG⟩ : ExifHeader).firstIfd = .nullIFD ∧
    (ParseExif (fun _ _ _ _ => none) ⟨.big, 8, 0, 100, .nullIFD, imageJPEG⟩).2 ≠
      some .invalidHeader ∧
    (ParseExif (fun _ _ _ _ => none) ⟨.big, 8, 0, 100, .nullIFD, imageJPEG⟩).1.isSome = true := by
  refine ⟨rfl, rfl, ?_, rfl⟩
  intro hc
  simp [ParseExif, ExifHeader.IsValid] at hc

/-- Claim C2 (amended): `ParseExif` fails with the invalid-header error
(returning no result object and starting no resolution) exactly when the
header is not valid; a valid header whose first-directory designator is
the null IFD is remapped to the primary IFD (IFD0) and resolution
proceeds on the constructed result object.  `Data.ParseIfd`, by
contrast, rejects both an invalid header and a null first-directory
designator with the invalid-header error. -/
theorem claim_C2_amended (scanIFD : ScanIFD) (h : ExifHeader) :
    (h.IsValid = false → ParseExif scanIFD h = (none, some .invalidHeader)) ∧
    (h.IsValid = true → ParseExif scanIFD h =
      (some (newData h),
       scanIFD (newData h) (if h.firstIfd = .nullIFD then .ifd0 else h.firstIfd) 0
         h.firstIfdOffset)) ∧
    (∀ d : Data, (¬ h.IsValid = true ∨ h.firstIfd = .nullIFD) →
      d.ParseIfd scanIFD h = (d, some .invalidHeader)) := by
  refine ⟨?_, ?_, ?_⟩
  · intro hv
    simp [ParseExif, hv]
  · intro hv
    simp [ParseExif, hv]
  · intro d hd
    unfold Data.ParseIfd
    rw [if_pos hd]

/-- Witness for C2 (amended): an unrecognized byte order is rejected; a
valid big-endian header with null first-directory designator resolves
from IFD0; `ParseIfd` rejects the null designator. -/
theorem claim_C2_witness :
    ((⟨.unknown, 8, 0, 100, .ifd0, imageJPEG⟩ : ExifHeader).IsValid = false ∧
      ParseExif (fun _ _ _ _ => none) ⟨.unknown, 8, 0, 100, .ifd0, imageJPEG⟩ =
        (none, some .invalidHeader)) ∧
    ((⟨.big, 8, 0, 100, .nullIFD, imageJPEG⟩ : ExifHeader).IsValid = true ∧
      ParseExif (fun _ _ _ _ => none) ⟨.big, 8, 0, 100, .nullIFD, imageJPEG⟩ =
        (some (newData ⟨.big, 8, 0, 100, .nullIFD, imageJPEG⟩),
         (fun _ _ _ _ => none) (newData ⟨.big, 8, 0, 100, .nullIFD, imageJPEG⟩)
           (if (⟨.big, 8, 0, 100, .nullIFD, imageJPEG⟩ : ExifHeader).firstIfd = .nullIFD then
             IfdType.ifd0
            else (⟨.big, 8, 0, 100, .nullIFD, imageJPEG⟩ : ExifHeader).firstIfd) 0 8)) ∧
    (Data.ParseIfd (fun _ _ _ _ => none) ⟨⟨0, 0, .big⟩, [], imageJPEG⟩
        ⟨.big, 8, 0, 100, .nullIFD, imageJPEG⟩ =
      (⟨⟨0, 0, .big⟩, [], imageJPEG⟩, some .invalidHeader)) :=
  ⟨⟨rfl, (claim_C2_amended (fun _ _ _ _ => none) ⟨.unknown, 8, 0, 100, .ifd0, imageJPEG⟩).1 rfl⟩,
   ⟨rfl, (claim_C2_amended (fun _ _ _ _ => none) ⟨.big, 8, 0, 100, .nullIFD, imageJPEG⟩).2.1 rfl⟩,
   (claim_C2_amended (fun _ _ _ _ => none) ⟨.big, 8, 0, 100, .nullIFD, imageJPEG⟩).2.2
     ⟨⟨0, 0, .big⟩, [], imageJPEG⟩ (Or.inr rfl)⟩

end Exif
